import Mathlib

/-!
Shallow embedding of the `utils` datetime core of the `adjustment` repository
(src/utils/src/datetime.rs, datetime/date.rs, datetime/time.rs,
datetime/primatives.rs, errors.rs), together with theorems settling the
claims about it.

Conventions of the embedding:
- Rust `u8`/`u16` values are `Nat`; where overflow matters the two's-complement
  wrap is written with explicit `% 256` (the semantics of the compiled
  arithmetic; Rust debug builds would panic instead of wrapping).
- Rust `i32` is `Int`; `/` and `%` on `i32` are `Int.tdiv` / `Int.tmod`
  (truncation toward zero, the sign convention of Rust's `/` and `%`).
- `Result<T, Error>` is `Except Error T`.
- Rust iterator `fn next(&mut self) -> Option<Self::Item>` is a function
  `α → α × Option α`: first component is the state the receiver is left in,
  second the returned item.
- System-clock / local-zone I/O (`OffsetDateTime::now_local()`) is passed in
  as an explicit `Except String OffsetTimeModel` argument (the error carries
  the underlying cause's text).
-/

namespace Adjustment

/-- Error codes of `errors.rs` (`pub enum ErrorCode`).  The extra variant
`dateTimeCreation` is referenced by `DateTime::local` in `datetime.rs`
(`ErrorCode::DateTimeCreation`) although it is absent from the enum declared
in `errors.rs`; it is included here so that `DateTime::local` can be embedded
as written. -/
inductive ErrorCode where
  | invalid
  | notFound
  | unauthorized
  | forbidden
  | unprocessable
  | internal
  | unavailable
  | conflict
  | timeout
  | unknown
  | dateTimeCreation
deriving DecidableEq, Repr

/-- The `Error` struct of `errors.rs`.  The `meta` map is never touched by the
datetime module and is omitted; the attached cause (`source`) is modelled by
the cause's rendered text. -/
structure Error where
  message : String
  code : ErrorCode
  is_transient : Bool
  cause : Option String
deriving DecidableEq, Repr

/-- `Error::new`: message and code, transient, no cause. -/
def Error.new (message : String) (code : ErrorCode) : Error :=
  { message := message, code := code, is_transient := true, cause := none }

/-- `Error::with_cause`: attaches the underlying cause. -/
def Error.with_cause (e : Error) (cause : String) : Error :=
  { e with cause := some cause }

/-- `pub enum Month` of `primatives.rs` (ordinals 1..12). -/
inductive Month where
  | january
  | february
  | march
  | april
  | may
  | june
  | july
  | august
  | september
  | october
  | november
  | december
deriving DecidableEq, Repr

/-- `Month::from_u8`. -/
def Month.from_u8 (month : Nat) : Except Error Month :=
  match month with
  | 1 => .ok .january
  | 2 => .ok .february
  | 3 => .ok .march
  | 4 => .ok .april
  | 5 => .ok .may
  | 6 => .ok .june
  | 7 => .ok .july
  | 8 => .ok .august
  | 9 => .ok .september
  | 10 => .ok .october
  | 11 => .ok .november
  | 12 => .ok .december
  | _ => .error (Error.new "Invalid month provided" .invalid)

/-- `Month::as_u8`. -/
def Month.as_u8 : Month → Nat
  | .january => 1
  | .february => 2
  | .march => 3
  | .april => 4
  | .may => 5
  | .june => 6
  | .july => 7
  | .august => 8
  | .september => 9
  | .october => 10
  | .november => 11
  | .december => 12

/-- `Month::as_long`. -/
def Month.as_long : Month → String
  | .january => "January"
  | .february => "February"
  | .march => "March"
  | .april => "April"
  | .may => "May"
  | .june => "June"
  | .july => "July"
  | .august => "August"
  | .september => "September"
  | .october => "October"
  | .november => "November"
  | .december => "December"

/-- `Month::as_short`. -/
def Month.as_short : Month → String
  | .january => "Jan"
  | .february => "Feb"
  | .march => "Mar"
  | .april => "Apr"
  | .may => "May"
  | .june => "Jun"
  | .july => "Jul"
  | .august => "Aug"
  | .september => "Sep"
  | .october => "Oct"
  | .november => "Nov"
  | .december => "Dec"

/-- `Month::valid_days_in_month`: February has 29 days exactly when
`year % 4 == 0` (the library's leap-year rule, Rust truncated `%`). -/
def Month.valid_days_in_month (m : Month) (year : Int) : Nat :=
  match m with
  | .january => 31
  | .february => if Int.tmod year 4 = 0 then 29 else 28
  | .march => 31
  | .april => 30
  | .may => 31
  | .june => 30
  | .july => 31
  | .august => 31
  | .september => 30
  | .october => 31
  | .november => 30
  | .december => 31

/-- `Month::is_valid_day`: `day <= valid_days_in_month(year)` (no lower
bound — day 0 passes this check). -/
def Month.is_valid_day (m : Month) (day : Nat) (year : Int) : Bool :=
  day ≤ m.valid_days_in_month year

/-- `impl Iterator for Month`: `next` advances January→February, …,
November→December; at `December` it returns `None` and leaves the receiver
unchanged (it does not wrap to January). -/
def Month.next : Month → Month × Option Month
  | .january => (.february, some .january)
  | .february => (.march, some .february)
  | .march => (.april, some .march)
  | .april => (.may, some .april)
  | .may => (.june, some .may)
  | .june => (.july, some .june)
  | .july => (.august, some .july)
  | .august => (.september, some .august)
  | .september => (.october, some .september)
  | .october => (.november, some .october)
  | .november => (.december, some .november)
  | .december => (.december, none)

/-- `impl DoubleEndedIterator for Month`: `next_back` retreats; at `January`
it returns `None` and leaves the receiver unchanged. -/
def Month.next_back : Month → Month × Option Month
  | .january => (.january, none)
  | .february => (.january, some .february)
  | .march => (.february, some .march)
  | .april => (.march, some .april)
  | .may => (.april, some .may)
  | .june => (.may, some .june)
  | .july => (.june, some .july)
  | .august => (.july, some .august)
  | .september => (.august, some .september)
  | .october => (.september, some .october)
  | .november => (.october, some .november)
  | .december => (.november, some .december)

/-- `pub enum Weekday` of `primatives.rs` (ordinals Sunday=1 .. Saturday=7). -/
inductive Weekday where
  | sunday
  | monday
  | tuesday
  | wednesday
  | thursday
  | friday
  | saturday
deriving DecidableEq, Repr

/-- `Weekday::from_u8`: 1..7 map to Sunday..Saturday, anything else (in
particular 0) is an `Invalid` error. -/
def Weekday.from_u8 (day : Nat) : Except Error Weekday :=
  match day with
  | 1 => .ok .sunday
  | 2 => .ok .monday
  | 3 => .ok .tuesday
  | 4 => .ok .wednesday
  | 5 => .ok .thursday
  | 6 => .ok .friday
  | 7 => .ok .saturday
  | _ => .error (Error.new "Invalid day provided" .invalid)

/-- `Weekday::as_u8`. -/
def Weekday.as_u8 : Weekday → Nat
  | .sunday => 1
  | .monday => 2
  | .tuesday => 3
  | .wednesday => 4
  | .thursday => 5
  | .friday => 6
  | .saturday => 7

/-- `Weekday::as_long`. -/
def Weekday.as_long : Weekday → String
  | .sunday => "Sunday"
  | .monday => "Monday"
  | .tuesday => "Tuesday"
  | .wednesday => "Wednesday"
  | .thursday => "Thursday"
  | .friday => "Friday"
  | .saturday => "Saturday"

/-- `Weekday::as_short`. -/
def Weekday.as_short : Weekday → String
  | .sunday => "Sun"
  | .monday => "Mon"
  | .tuesday => "Tue"
  | .wednesday => "Wed"
  | .thursday => "Thu"
  | .friday => "Fri"
  | .saturday => "Sat"

/-- `Weekday::from_values`, the library's Zeller-style derivation, exactly as
written: if `month < 3` then `month += 12` (the year is NOT decremented);
`century = year / 100`, `year_of_century = year % 100` (truncated);
the congruence value is reduced with Rust's truncated `%`, normalized by
`(w + 7) % 7` into `0..=6`, and then fed to `Weekday::from_u8`, which only
accepts `1..=7` — so the value 0 becomes an `Invalid` error. -/
def Weekday.from_values (year : Int) (month day : Nat) : Except Error Weekday :=
  let month := if month < 3 then month + 12 else month
  let century := Int.tdiv year 100
  let year_of_century := Int.tmod year 100
  let weekday :=
    Int.tmod
      ((day : Int) + Int.tdiv (((month : Int) + 1) * 26) 10 + year_of_century
        + Int.tdiv year_of_century 4 + Int.tdiv century 4 - 2 * century) 7
  let weekday := (Int.tmod (weekday + 7) 7).toNat
  Weekday.from_u8 weekday

/-- `impl Iterator for Weekday`: wraps Saturday back to Sunday. -/
def Weekday.next : Weekday → Weekday × Option Weekday
  | .sunday => (.monday, some .sunday)
  | .monday => (.tuesday, some .monday)
  | .tuesday => (.wednesday, some .tuesday)
  | .wednesday => (.thursday, some .wednesday)
  | .thursday => (.friday, some .thursday)
  | .friday => (.saturday, some .friday)
  | .saturday => (.sunday, some .saturday)

/-- `impl DoubleEndedIterator for Weekday`: wraps Sunday back to Saturday. -/
def Weekday.next_back : Weekday → Weekday × Option Weekday
  | .sunday => (.saturday, some .sunday)
  | .monday => (.sunday, some .monday)
  | .tuesday => (.monday, some .tuesday)
  | .wednesday => (.tuesday, some .wednesday)
  | .thursday => (.wednesday, some .thursday)
  | .friday => (.thursday, some .friday)
  | .saturday => (.friday, some .saturday)

/-- `pub struct Day(u8)` of `primatives.rs`. -/
structure Day where
  val : Nat
deriving DecidableEq, Repr

/-- `Day::first`. -/
def Day.first : Day := ⟨1⟩

/-- `Day::from_u8`: rejects only `day > 31` (day 0 is accepted). -/
def Day.from_u8 (day : Nat) : Except Error Day :=
  if day > 31 then .error (Error.new "Invalid day provided" .invalid)
  else .ok ⟨day⟩

/-- `Day::dangerously_from_u8`. -/
def Day.dangerously_from_u8 (day : Nat) : Day := ⟨day⟩

/-- `Day::as_u8`. -/
def Day.as_u8 (d : Day) : Nat := d.val

/-- `impl Iterator for Day` (the 32-arm match of `primatives.rs`, lines
726-858, written by cases on the stored value): values 1..=30 step to the
successor, 31 wraps to 1, and any other value (e.g. 0) returns `None` and
leaves the receiver unchanged.  The returned item is the OLD value. -/
def Day.next (d : Day) : Day × Option Day :=
  if 1 ≤ d.val ∧ d.val ≤ 30 then (⟨d.val + 1⟩, some ⟨d.val⟩)
  else if d.val = 31 then (⟨1⟩, some ⟨31⟩)
  else (d, none)

/-- `impl DoubleEndedIterator for Day`: 1 wraps to 31, values 2..=31 step to
the predecessor, any other value returns `None`, receiver unchanged. -/
def Day.next_back (d : Day) : Day × Option Day :=
  if d.val = 1 then (⟨31⟩, some ⟨1⟩)
  else if 2 ≤ d.val ∧ d.val ≤ 31 then (⟨d.val - 1⟩, some ⟨d.val⟩)
  else (d, none)

/-- `Day::pretty_format` (the literal table of `primatives.rs`). -/
def Day.pretty_format (d : Day) : String :=
  match d.val with
  | 1 => "1st"
  | 2 => "2nd"
  | 3 => "3rd"
  | 4 => "4th"
  | 5 => "5th"
  | 6 => "6th"
  | 7 => "7th"
  | 8 => "8th"
  | 9 => "9th"
  | 10 => "10th"
  | 11 => "11th"
  | 12 => "12th"
  | 13 => "13th"
  | 14 => "14th"
  | 15 => "15th"
  | 16 => "16th"
  | 17 => "17th"
  | 18 => "18th"
  | 19 => "19th"
  | 20 => "20th"
  | 21 => "21st"
  | 22 => "22nd"
  | 23 => "23rd"
  | 24 => "24th"
  | 25 => "25th"
  | 26 => "26th"
  | 27 => "27th"
  | 28 => "28th"
  | 29 => "29th"
  | 30 => "30th"
  | 31 => "31st"
  | _ => "th"

/-- `pub struct Year(i32)` of `primatives.rs`. -/
structure Year where
  val : Int
deriving DecidableEq, Repr

/-- `Year::from_i32`: rejects negative years. -/
def Year.from_i32 (year : Int) : Except Error Year :=
  if year < 0 then .error (Error.new "Invalid year provided" .invalid)
  else .ok ⟨year⟩

/-- `Year::as_i32`. -/
def Year.as_i32 (y : Year) : Int := y.val

/-- `Year::is_leap_year`: `self.0 % 4 == 0` (the library's leap rule; no
century exception). -/
def Year.is_leap_year (y : Year) : Bool := Int.tmod y.val 4 = 0

/-- `impl Iterator for Year`: always increments and returns the new value. -/
def Year.next (y : Year) : Year × Option Year :=
  (⟨y.val + 1⟩, some ⟨y.val + 1⟩)

/-- `impl DoubleEndedIterator for Year`: always decrements. -/
def Year.next_back (y : Year) : Year × Option Year :=
  (⟨y.val - 1⟩, some ⟨y.val - 1⟩)

/-- `Month::last_day`: `Day::dangerously_from_u8(valid_days_in_month)`. -/
def Month.last_day (m : Month) (year : Year) : Day :=
  Day.dangerously_from_u8 (m.valid_days_in_month year.as_i32)

/-- `Month::is_last_day`: `day == valid_days_in_month(year)`. -/
def Month.is_last_day (m : Month) (year : Year) (day : Day) : Bool :=
  day.as_u8 = m.valid_days_in_month year.as_i32

/-- `pub struct Hour(u8)` of `primatives.rs`. -/
structure Hour where
  val : Nat
deriving DecidableEq, Repr

/-- `Hour::from_u8`: rejects `hour > 23`. -/
def Hour.from_u8 (hour : Nat) : Except Error Hour :=
  if hour > 23 then .error (Error.new "Invalid hour provided" .invalid)
  else .ok ⟨hour⟩

/-- `Hour::dangerously_from_u8`. -/
def Hour.dangerously_from_u8 (hour : Nat) : Hour := ⟨hour⟩

/-- `Hour::as_u8`. -/
def Hour.as_u8 (h : Hour) : Nat := h.val

/-- `Hour::pretty_format`: hours above 12 are reduced by 12 (0 stays 0). -/
def Hour.pretty_format (h : Hour) : Nat :=
  if h.val > 12 then h.val - 12 else h.val

/-- `impl Iterator for Hour`: 23 wraps to 0 (returning the old value 23);
otherwise increments and returns the NEW value.  The increment is u8
arithmetic, written with its two's-complement wrap. -/
def Hour.next (h : Hour) : Hour × Option Hour :=
  match h.val with
  | 23 => (⟨0⟩, some ⟨23⟩)
  | v => (⟨(v + 1) % 256⟩, some ⟨(v + 1) % 256⟩)

/-- `impl DoubleEndedIterator for Hour`: 0 wraps to 23 (returning the old
value 0); otherwise decrements and returns the new value. -/
def Hour.next_back (h : Hour) : Hour × Option Hour :=
  match h.val with
  | 0 => (⟨23⟩, some ⟨0⟩)
  | v => (⟨v - 1⟩, some ⟨v - 1⟩)

/-- `impl Sub<u8> for Hour` (`primatives.rs` lines 1330-1341):
`let hour = self.0 - rhs` is u8 arithmetic, embedded as the two's-complement
wrap `(self.0 + 256 - rhs) % 256`; the result is returned as is when it lands
in `0..=23` and otherwise has 24 added to it — again u8 arithmetic, so that
second addition wraps too. -/
def Hour.sub_u8 (h : Hour) (rhs : Nat) : Hour :=
  let hour := (h.val + 256 - rhs % 256) % 256
  if hour ≤ 23 then ⟨hour⟩ else ⟨(hour + 24) % 256⟩

/-- `impl SubAssign<u8> for Hour` (`primatives.rs` lines 1343-1351):
`self.0 -= rhs`, then if the (wrapped) value exceeds 23, 24 is added to it
(u8 arithmetic, wrapping). -/
def Hour.sub_assign_u8 (h : Hour) (rhs : Nat) : Hour :=
  let v := (h.val + 256 - rhs % 256) % 256
  if v > 23 then ⟨(v + 24) % 256⟩ else ⟨v⟩

/-- `pub struct Minute(u8)` of `primatives.rs`. -/
structure Minute where
  val : Nat
deriving DecidableEq, Repr

/-- `Minute::from_u8`: rejects `minute > 59`. -/
def Minute.from_u8 (minute : Nat) : Except Error Minute :=
  if minute > 59 then .error (Error.new "Invalid minute provided" .invalid)
  else .ok ⟨minute⟩

/-- `Minute::dangerously_from_u8`. -/
def Minute.dangerously_from_u8 (minute : Nat) : Minute := ⟨minute⟩

/-- `impl Iterator for Minute`: 59 wraps to 0; otherwise increments. -/
def Minute.next (m : Minute) : Minute × Option Minute :=
  match m.val with
  | 59 => (⟨0⟩, some ⟨59⟩)
  | v => (⟨(v + 1) % 256⟩, some ⟨(v + 1) % 256⟩)

/-- `impl DoubleEndedIterator for Minute`: 0 wraps to 59; otherwise
decrements. -/
def Minute.next_back (m : Minute) : Minute × Option Minute :=
  match m.val with
  | 0 => (⟨59⟩, some ⟨0⟩)
  | v => (⟨v - 1⟩, some ⟨v - 1⟩)

/-- `pub struct Second(u8)` of `primatives.rs`. -/
structure Second where
  val : Nat
deriving DecidableEq, Repr

/-- `Second::from_u8`: rejects `second > 59`. -/
def Second.from_u8 (second : Nat) : Except Error Second :=
  if second > 59 then .error (Error.new "Invalid second provided" .invalid)
  else .ok ⟨second⟩

/-- `Second::dangerously_from_u8`. -/
def Second.dangerously_from_u8 (second : Nat) : Second := ⟨second⟩

/-- `impl Iterator for Second`: 59 wraps to 0; otherwise increments. -/
def Second.next (s : Second) : Second × Option Second :=
  match s.val with
  | 59 => (⟨0⟩, some ⟨59⟩)
  | v => (⟨(v + 1) % 256⟩, some ⟨(v + 1) % 256⟩)

/-- `impl DoubleEndedIterator for Second`: 0 wraps to 59; otherwise
decrements. -/
def Second.next_back (s : Second) : Second × Option Second :=
  match s.val with
  | 0 => (⟨59⟩, some ⟨0⟩)
  | v => (⟨v - 1⟩, some ⟨v - 1⟩)

/-- `pub struct Millisecond(u16)` of `primatives.rs`. -/
structure Millisecond where
  val : Nat
deriving DecidableEq, Repr

/-- `Millisecond::from_u16`: rejects `millisecond > 999`. -/
def Millisecond.from_u16 (millisecond : Nat) : Except Error Millisecond :=
  if millisecond > 999 then
    .error (Error.new "Invalid millisecond provided" .invalid)
  else .ok ⟨millisecond⟩

/-- `Millisecond::dangerously_from_u16`. -/
def Millisecond.dangerously_from_u16 (millisecond : Nat) : Millisecond :=
  ⟨millisecond⟩

/-- `impl Iterator for Millisecond`: 999 wraps to 0; otherwise increments
(u16 arithmetic, wrapping at 2^16). -/
def Millisecond.next (m : Millisecond) : Millisecond × Option Millisecond :=
  match m.val with
  | 999 => (⟨0⟩, some ⟨999⟩)
  | v => (⟨(v + 1) % 65536⟩, some ⟨(v + 1) % 65536⟩)

/-- `impl DoubleEndedIterator for Millisecond`: 0 wraps to 999; otherwise
decrements. -/
def Millisecond.next_back (m : Millisecond) : Millisecond × Option Millisecond :=
  match m.val with
  | 0 => (⟨999⟩, some ⟨0⟩)
  | v => (⟨v - 1⟩, some ⟨v - 1⟩)

/-- `pub struct Offset(i32)` of `time.rs`. -/
structure Offset where
  val : Int
deriving DecidableEq, Repr

/-- `Offset::is_valid_seconds`: inside `[-43200, 50400]`. -/
def Offset.is_valid_seconds (from_seconds : Int) : Bool :=
  from_seconds ≥ -43200 && from_seconds ≤ 50400

/-- `Offset::from_seconds`. -/
def Offset.from_seconds (from_seconds : Int) : Except Error Offset :=
  if ¬ Offset.is_valid_seconds from_seconds then
    .error (Error.new "Invalid offset provided" .invalid)
  else .ok ⟨from_seconds⟩

/-- `Offset::dangerously_from_seconds`. -/
def Offset.dangerously_from_seconds (from_seconds : Int) : Offset :=
  ⟨from_seconds⟩

/-- `Offset::as_seconds`. -/
def Offset.as_seconds (o : Offset) : Int := o.val

/-- `find_common_tz_from_seconds` of `time.rs`: the static table of common
fixed offsets. -/
def find_common_tz_from_seconds (seconds : Int) : Option String :=
  if seconds = 0 then some "UTC"
  else if seconds = 18000 then some "EST"
  else if seconds = 21600 then some "CST"
  else if seconds = 25200 then some "MST"
  else if seconds = 28800 then some "PST"
  else if seconds = -32400 then some "AKST"
  else if seconds = -36000 then some "HST"
  else none

/-- `Offset::get_timezone_abbreviation`: range check, then the static table.
The subsequent scan of the external `chrono_tz` catalog compares each zone's
offset *at the current instant* with the requested one — that step is
I/O-dependent and is modelled as finding no match. -/
def Offset.get_timezone_abbreviation (o : Offset) : Option String :=
  if o.val < -43200 ∨ o.val > 50400 then none
  else
    match find_common_tz_from_seconds o.val with
    | some tz => some tz
    | none => none

/-- The four format kinds (`pub enum DateTimeFormat` of `datetime.rs`). -/
inductive DateTimeFormat where
  | ISO8601
  | RFC2822
  | RFC3339
  | PRETTY
deriving DecidableEq, Repr

/-- Rust's `{:0N}` zero-padding of a nonnegative number rendered by
`Display`. -/
def zero_pad (width : Nat) (s : String) : String :=
  if width ≤ s.length then s
  else String.mk (List.replicate (width - s.length) '0') ++ s

/-- `format!("{:02}", n)` for a plain primitive integer (`u8`/`i32`), whose
built-in `Display` honors the width.  The width is honored ONLY for
primitives: the crate's wrapper types (`Year`, `Day`, `Hour`, `Minute`,
`Second`, `Millisecond`) have custom `Display` impls of the form
`write!(f, "{}", ...)`, which build a fresh default format spec and thereby
discard the outer `{:0N}` width — those fields render unpadded wherever the
source applies `{:0N}` to the wrapper itself. -/
def fmt02 (n : Nat) : String := zero_pad 2 (toString n)

/-- `Offset::shared_format` of `time.rs`: sign, then `abs/3600` and
`(abs%3600)/60` zero-padded (identical for ISO8601, RFC2822 and RFC3339);
for PRETTY, the timezone abbreviation, falling back to the empty string. -/
def Offset.shared_format (offset : Offset) (format : DateTimeFormat) : String :=
  match format with
  | .ISO8601 =>
      (if offset.val < 0 then "-" else "+")
        ++ fmt02 (offset.val.natAbs / 3600) ++ ":"
        ++ fmt02 ((offset.val.natAbs % 3600) / 60)
  | .PRETTY =>
      match offset.get_timezone_abbreviation with
      | some tz => tz
      | none => ""
  | .RFC2822 =>
      (if offset.val < 0 then "-" else "+")
        ++ fmt02 (offset.val.natAbs / 3600) ++ ":"
        ++ fmt02 ((offset.val.natAbs % 3600) / 60)
  | .RFC3339 =>
      (if offset.val < 0 then "-" else "+")
        ++ fmt02 (offset.val.natAbs / 3600) ++ ":"
        ++ fmt02 ((offset.val.natAbs % 3600) / 60)

/-- `impl Format for Offset`: always `Ok(shared_format)`. -/
def Offset.format (o : Offset) (f : DateTimeFormat) : Except Error String :=
  .ok (Offset.shared_format o f)

/-- `pub struct Date` of `date.rs`. -/
structure Date where
  year : Year
  month : Month
  day : Day
  weekday : Weekday
deriving DecidableEq, Repr

/-- `Date::is_valid_month`: `1 <= month <= 12`. -/
def Date.is_valid_month (month : Nat) : Bool :=
  month ≥ 1 && month ≤ 12

/-- `Date::is_valid_year`: `year >= 0`. -/
def Date.is_valid_year (year : Int) : Bool :=
  year ≥ 0

/-- `Date::is_valid_day` (argument order of the source: month, day, year). -/
def Date.is_valid_day (month day : Nat) (year : Int) : Bool :=
  if ¬ Date.is_valid_month month then false
  else
    match Month.from_u8 month with
    | .error _ => false
    | .ok m => m.is_valid_day day year

/-- `Date::is_valid`. -/
def Date.is_valid (year : Int) (month day : Nat) : Bool :=
  Date.is_valid_month month && Date.is_valid_day month day year
    && Date.is_valid_year year

/-- `Date::new`: validity check, then `Weekday::from_values` (whose error —
in particular the one for Zeller value 0 — propagates), then the component
constructors. -/
def Date.new (year : Int) (month day : Nat) : Except Error Date := do
  if ¬ Date.is_valid year month day then
    throw (Error.new "Invalid date provided" .invalid)
  let weekday ← Weekday.from_values year month day
  let year' ← Year.from_i32 year
  let month' ← Month.from_u8 month
  let day' ← Day.from_u8 day
  return { year := year', month := month', day := day', weekday := weekday }

/-- `Date::is_last_day_of_month`. -/
def Date.is_last_day_of_month (d : Date) : Bool :=
  d.month.is_last_day d.year d.day

/-- `Date::is_last_day_of_year`: December 31. -/
def Date.is_last_day_of_year (d : Date) : Bool :=
  d.month = Month.december && d.day.as_u8 = 31

/-- `Date::is_first_day_of_month`: day 1. -/
def Date.is_first_day_of_month (d : Date) : Bool :=
  d.day.as_u8 = 1

/-- `Date::is_first_day_of_year`: January 1. -/
def Date.is_first_day_of_year (d : Date) : Bool :=
  d.month = Month.january && d.day.as_u8 = 1

/-- `Date::is_leap_year_day`: February 29. -/
def Date.is_leap_year_day (d : Date) : Bool :=
  d.month = Month.february && d.day.as_u8 = 29

/-- One iteration of the loop in `Date::add_days` (`date.rs` lines 324-342),
with the statements in source order: (1) if on the last day of the month,
advance the month via its iterator (which leaves December unchanged);
(2) if the day now exceeds the (possibly new) month's last day, reset it to
`Day::first()`, otherwise step the day via its iterator (31 wraps to 1);
(3) if the result is January 1, advance the year.  The `weekday` field is
never touched. -/
def Date.add_days_step (dt : Date) : Date :=
  let dt :=
    if dt.is_last_day_of_month then { dt with month := dt.month.next.1 }
    else dt
  let dt :=
    if dt.day.as_u8 > (dt.month.last_day dt.year).as_u8 then
      { dt with day := Day.first }
    else { dt with day := dt.day.next.1 }
  if dt.is_first_day_of_year then { dt with year := dt.year.next.1 } else dt

/-- `Date::add_days`: the loop `for _ in 0..days`. -/
def Date.add_days (dt : Date) : Nat → Date
  | 0 => dt
  | n + 1 => (dt.add_days_step).add_days n

/-- One iteration of the loop in `Date::sub_days` (`date.rs` lines 344-362):
(1) if on day 1, retreat the month via its back iterator (which leaves
January unchanged); (2) if the day is 1, set it to the (possibly new) month's
last day, otherwise step the day back; (3) if the result is December 31,
retreat the year. -/
def Date.sub_days_step (dt : Date) : Date :=
  let dt :=
    if dt.is_first_day_of_month then { dt with month := dt.month.next_back.1 }
    else dt
  let dt :=
    if dt.day.as_u8 = 1 then { dt with day := dt.month.last_day dt.year }
    else { dt with day := dt.day.next_back.1 }
  if dt.is_last_day_of_year then { dt with year := dt.year.next_back.1 }
  else dt

/-- `Date::sub_days`. -/
def Date.sub_days (dt : Date) : Nat → Date
  | 0 => dt
  | n + 1 => (dt.sub_days_step).sub_days n

/-- `Date::add_weeks`: `add_days(weeks * 7)` — the multiplication is u8
arithmetic, embedded with its wrap. -/
def Date.add_weeks (dt : Date) (weeks : Nat) : Date :=
  dt.add_days (weeks * 7 % 256)

/-- `Date::sub_weeks`. -/
def Date.sub_weeks (dt : Date) (weeks : Nat) : Date :=
  dt.sub_days (weeks * 7 % 256)

/-- One iteration of the loop in `Date::add_months` (`date.rs` lines
372-392), parametrized by the `is_last_day_of_month` flag that the source
captures once, BEFORE the loop: (1) if the month is December, advance the
year; (2) compute `last_day` of the CURRENT month (the month has not been
advanced yet); (3) clamp the day to it when the flag is set or the day
exceeds it; (4) advance the month via its iterator (December stays
December). -/
def Date.add_months_step (is_last_day_of_month : Bool) (dt : Date) : Date :=
  let dt :=
    if dt.month = Month.december then { dt with year := dt.year.next.1 }
    else dt
  let last_day := dt.month.last_day dt.year
  let dt :=
    if is_last_day_of_month then { dt with day := last_day }
    else if dt.day.as_u8 > last_day.as_u8 then { dt with day := last_day }
    else dt
  { dt with month := dt.month.next.1 }

/-- The loop of `Date::add_months`. -/
def Date.add_months_go (is_last_day_of_month : Bool) (dt : Date) :
    Nat → Date
  | 0 => dt
  | n + 1 =>
      Date.add_months_go is_last_day_of_month
        (Date.add_months_step is_last_day_of_month dt) n

/-- `Date::add_months`. -/
def Date.add_months (dt : Date) (months : Nat) : Date :=
  Date.add_months_go dt.is_last_day_of_month dt months

/-- One iteration of the loop in `Date::sub_months` (`date.rs` lines
394-414): symmetric to `add_months_step`, retreating month and year. -/
def Date.sub_months_step (is_last_day_of_month : Bool) (dt : Date) : Date :=
  let dt :=
    if dt.month = Month.january then { dt with year := dt.year.next_back.1 }
    else dt
  let last_day := dt.month.last_day dt.year
  let dt :=
    if is_last_day_of_month then { dt with day := last_day }
    else if dt.day.as_u8 > last_day.as_u8 then { dt with day := last_day }
    else dt
  { dt with month := dt.month.next_back.1 }

/-- The loop of `Date::sub_months`. -/
def Date.sub_months_go (is_last_day_of_month : Bool) (dt : Date) :
    Nat → Date
  | 0 => dt
  | n + 1 =>
      Date.sub_months_go is_last_day_of_month
        (Date.sub_months_step is_last_day_of_month dt) n

/-- `Date::sub_months`. -/
def Date.sub_months (dt : Date) (months : Nat) : Date :=
  Date.sub_months_go dt.is_last_day_of_month dt months

/-- One iteration of the loop in `Date::add_years` (`date.rs` lines 416-432),
parametrized by the `is_leap_year_day` flag captured before the loop: the
leap test is made on the CURRENT year, before it is advanced; on a Feb 29
date the day is set to 29 when that year is a leap year, to 28 otherwise;
then the year is advanced. -/
def Date.add_years_step (is_leap_year_day : Bool) (dt : Date) : Date :=
  let is_leap_year := dt.year.is_leap_year
  let dt :=
    if is_leap_year_day && is_leap_year then
      { dt with day := Day.dangerously_from_u8 29 }
    else if is_leap_year_day && !is_leap_year then
      { dt with day := Day.dangerously_from_u8 28 }
    else dt
  { dt with year := dt.year.next.1 }

/-- The loop of `Date::add_years` (the count is `u32`, modelled as `Nat`). -/
def Date.add_years_go (is_leap_year_day : Bool) (dt : Date) : Nat → Date
  | 0 => dt
  | n + 1 =>
      Date.add_years_go is_leap_year_day
        (Date.add_years_step is_leap_year_day dt) n

/-- `Date::add_years`. -/
def Date.add_years (dt : Date) (years : Nat) : Date :=
  Date.add_years_go dt.is_leap_year_day dt years

/-- One iteration of the loop in `Date::sub_years` (`date.rs` lines
434-450): same clamping as `add_years_step`, retreating the year. -/
def Date.sub_years_step (is_leap_year_day : Bool) (dt : Date) : Date :=
  let is_leap_year := dt.year.is_leap_year
  let dt :=
    if is_leap_year_day && is_leap_year then
      { dt with day := Day.dangerously_from_u8 29 }
    else if is_leap_year_day && !is_leap_year then
      { dt with day := Day.dangerously_from_u8 28 }
    else dt
  { dt with year := dt.year.next_back.1 }

/-- The loop of `Date::sub_years`. -/
def Date.sub_years_go (is_leap_year_day : Bool) (dt : Date) : Nat → Date
  | 0 => dt
  | n + 1 =>
      Date.sub_years_go is_leap_year_day
        (Date.sub_years_step is_leap_year_day dt) n

/-- `Date::sub_years`. -/
def Date.sub_years (dt : Date) (years : Nat) : Date :=
  Date.sub_years_go dt.is_leap_year_day dt years

/-- `Date::shared_format` (`date.rs` lines 640-675).  The source writes
`format!("{:04}-{:02}-{:02}", self.year, self.month.as_u8(), self.day)`
(and similarly for the other arms), but `Year` and `Day` are formatted
through their custom `Display` impls (`write!(f, "{}", as_i32/as_u8)`),
which discard the requested `{:04}`/`{:02}` width — so year and day render
unpadded.  Only `self.month.as_u8()`, a plain `u8`, is actually
zero-padded. -/
def Date.shared_format (dt : Date) (format : DateTimeFormat) : String :=
  match format with
  | .ISO8601 =>
      toString dt.year.as_i32 ++ "-" ++ fmt02 dt.month.as_u8 ++ "-"
        ++ toString dt.day.as_u8
  | .PRETTY =>
      dt.weekday.as_short ++ ", " ++ dt.month.as_long ++ " "
        ++ dt.day.pretty_format ++ " " ++ toString dt.year.as_i32
  | .RFC3339 =>
      toString dt.year.as_i32 ++ "-" ++ fmt02 dt.month.as_u8 ++ "-"
        ++ toString dt.day.as_u8
  | .RFC2822 =>
      dt.weekday.as_short ++ ", " ++ toString dt.day.as_u8 ++ " "
        ++ dt.month.as_short ++ " " ++ toString dt.year.as_i32

/-- `impl Format for Date`: always `Ok(shared_format)`. -/
def Date.format (dt : Date) (format : DateTimeFormat) : Except Error String :=
  .ok (dt.shared_format format)

/-- `pub struct Time` of `time.rs`. -/
structure Time where
  hour : Hour
  minute : Minute
  seconds : Second
  milliseconds : Option Millisecond
  offset : Option Offset
deriving DecidableEq, Repr

/-- `Time::new`. -/
def Time.new (hour minute seconds : Nat) (milliseconds : Option Nat)
    (offset : Option Int) : Except Error Time := do
  let hour' ← Hour.from_u8 hour
  let minute' ← Minute.from_u8 minute
  let seconds' ← Second.from_u8 seconds
  let milliseconds' ←
    match milliseconds with
    | some ms => do
        let m ← Millisecond.from_u16 ms
        pure (some m)
    | none => pure none
  let offset' ←
    match offset with
    | some o => do
        let o' ← Offset.from_seconds o
        pure (some o')
    | none => pure none
  return { hour := hour', minute := minute', seconds := seconds',
           milliseconds := milliseconds', offset := offset' }

/-- `Time::shared_format` (`time.rs` lines 213-292), given the already
rendered offset string.  The source applies `{:02}`/`{:03}` to `self.hour`,
`self.minute`, `self.seconds` and the `Millisecond` value, but all four are
formatted through their custom `Display` impls (`write!(f, "{}", ...)`),
which discard the requested width — those fields render unpadded.  The one
exception is the PRETTY arm's `format!("{:02}", self.hour.pretty_format())`:
`pretty_format()` returns a plain `u8`, so that one IS zero-padded. -/
def Time.shared_format (t : Time) (format : DateTimeFormat)
    (offset : Option String) : String :=
  match format with
  | .ISO8601 =>
      toString t.hour.as_u8 ++ ":" ++ toString t.minute.val ++ ":"
        ++ toString t.seconds.val
        ++ (match t.milliseconds with
            | some ms => "." ++ toString ms.val
            | none => "")
        ++ (match offset with
            | some o => o
            | none => "")
  | .PRETTY =>
      fmt02 t.hour.pretty_format ++ ":" ++ toString t.minute.val ++ ":"
        ++ toString t.seconds.val ++ " "
        ++ (if t.hour.as_u8 < 12 then "AM" else "PM")
        ++ (match offset with
            | some o => " " ++ o
            | none => "")
  | .RFC2822 =>
      toString t.hour.as_u8 ++ ":" ++ toString t.minute.val ++ ":"
        ++ toString t.seconds.val ++ " "
        ++ (match offset with
            | some o => o
            | none => "")
  | .RFC3339 =>
      toString t.hour.as_u8 ++ ":" ++ toString t.minute.val ++ ":"
        ++ toString t.seconds.val ++ "."
        ++ (match t.milliseconds with
            | some ms => toString ms.val
            | none => "")
        ++ (match offset with
            | some o => o
            | none => "")

/-- `impl Format for Time`: renders the offset (if any) first, then delegates
to `shared_format`. -/
def Time.format (t : Time) (format : DateTimeFormat) : Except Error String :=
  match t.offset with
  | some o => do
      let os ← o.format format
      return t.shared_format format (some os)
  | none => .ok (t.shared_format format none)

/-- `pub struct DateTime` of `datetime.rs`. -/
structure DateTime where
  date : Date
  time : Time
deriving DecidableEq, Repr

/-- `DateTime::new`. -/
def DateTime.new (year : Int) (month day hour minute second : Nat)
    (milliseconds : Option Nat) (offset : Option Int) :
    Except Error DateTime := do
  let date ← Date.new year month day
  let time ← Time.new hour minute second milliseconds offset
  return { date := date, time := time }

/-- `DateTime::shared_format`: date and time joined by `T` (ISO8601,
RFC3339) or a space (PRETTY, RFC2822). -/
def DateTime.shared_format (format : DateTimeFormat) (date time : String) :
    String :=
  let separator :=
    match format with
    | .ISO8601 => "T"
    | .PRETTY => " "
    | .RFC2822 => " "
    | .RFC3339 => "T"
  date ++ separator ++ time

/-- `impl Format for DateTime`. -/
def DateTime.format (dt : DateTime) (format : DateTimeFormat) :
    Except Error String := do
  let date ← dt.date.format format
  let time ← dt.time.format format
  return DateTime.shared_format format date time

/-- The fields the datetime module reads off an external
`time::OffsetDateTime` (the value produced by `now_utc()` /
`now_local()`). -/
structure OffsetTimeModel where
  year : Int
  month : Nat
  day : Nat
  hour : Nat
  minute : Nat
  second : Nat
  millisecond : Nat
  offset_seconds : Int
deriving DecidableEq, Repr

/-- `Weekday::dangerously_from_u8`: 1..7 map to the variants; on any other
value the source panics, modelled as `none`. -/
def Weekday.dangerously_from_u8 (day : Nat) : Option Weekday :=
  match day with
  | 1 => some .sunday
  | 2 => some .monday
  | 3 => some .tuesday
  | 4 => some .wednesday
  | 5 => some .thursday
  | 6 => some .friday
  | 7 => some .saturday
  | _ => none

/-- `Weekday::dangerously_from_values`: the same congruence as
`Weekday::from_values`, fed to `dangerously_from_u8` (which panics — `none` —
on the value 0). -/
def Weekday.dangerously_from_values (year : Int) (month day : Nat) :
    Option Weekday :=
  let month := if month < 3 then month + 12 else month
  let century := Int.tdiv year 100
  let year_of_century := Int.tmod year 100
  let weekday :=
    Int.tmod
      ((day : Int) + Int.tdiv (((month : Int) + 1) * 26) 10 + year_of_century
        + Int.tdiv year_of_century 4 + Int.tdiv century 4 - 2 * century) 7
  let weekday := (Int.tmod (weekday + 7) 7).toNat
  Weekday.dangerously_from_u8 weekday

/-- `Month::dangerously_from_u8`: panics (modelled as `none`) outside
1..12. -/
def Month.dangerously_from_u8 (month : Nat) : Option Month :=
  match Month.from_u8 month with
  | .ok m => some m
  | .error _ => none

/-- `Date::from_offset_time` / the success path of `Date::local`: the clock
fields go through the `dangerously_*` constructors (the weekday and month
ones can panic, hence `Option`). -/
def Date.from_offset_time (t : OffsetTimeModel) : Option Date := do
  let weekday ← Weekday.dangerously_from_values t.year t.month t.day
  let month ← Month.dangerously_from_u8 t.month
  return { year := ⟨t.year⟩, month := month,
           day := Day.dangerously_from_u8 t.day, weekday := weekday }

/-- `Time::from_offset_time` / the success path of `Time::local` and
`Time::now`: raw copies through total `dangerously_*` constructors. -/
def Time.from_offset_time (t : OffsetTimeModel) : Time :=
  { hour := Hour.dangerously_from_u8 t.hour
    minute := Minute.dangerously_from_u8 t.minute
    seconds := Second.dangerously_from_u8 t.second
    milliseconds := some (Millisecond.dangerously_from_u16 t.millisecond)
    offset := some (Offset.dangerously_from_seconds t.offset_seconds) }

/-- `Time::local` (`time.rs` lines 94-114), with the result of
`OffsetDateTime::now_local()` passed in explicitly.  On failure the source
returns `Error::new(err.to_string().as_str(), ErrorCode::Invalid)` — the
cause's text becomes the message, the code is `Invalid`, and no cause is
attached. -/
def Time.local (clock : Except String OffsetTimeModel) : Except Error Time :=
  match clock with
  | .error err => .error (Error.new err .invalid)
  | .ok t => .ok (Time.from_offset_time t)

/-- `Date::local` (`date.rs` lines 59-84): on failure,
`Error::new("Failed to get local date", ErrorCode::Internal).with_cause(err)`.
The success value is `Option`al because the weekday derivation can panic. -/
def Date.local (clock : Except String OffsetTimeModel) :
    Except Error (Option Date) :=
  match clock with
  | .error err =>
      .error ((Error.new "Failed to get local date" .internal).with_cause err)
  | .ok t => .ok (Date.from_offset_time t)

/-- `DateTime::local` (`datetime.rs` lines 70-88): on failure,
`Error::new("Failed to get local time", ErrorCode::DateTimeCreation)
.with_cause(error)`. -/
def DateTime.local (clock : Except String OffsetTimeModel) :
    Except Error (Option DateTime) :=
  match clock with
  | .error err =>
      .error
        ((Error.new "Failed to get local time" .dateTimeCreation).with_cause
          err)
  | .ok t =>
      .ok (do
        let date ← Date.from_offset_time t
        return { date := date, time := Time.from_offset_time t })

/-- The error code of a fallible result, `none` on success. -/
def result_code {α : Type} : Except Error α → Option ErrorCode
  | .error e => some e.code
  | .ok _ => none

/-- The attached cause of a fallible result, `none` on success or when no
cause is attached. -/
def result_cause {α : Type} : Except Error α → Option String
  | .error e => e.cause
  | .ok _ => none

/-- Spec-side validity predicate, transcribed from the words of the claim
about `Date::new` (a refinement comparison, NOT taken from the source):
success iff `m ∈ [1,12]`, `d ∈ [1, days_in_month(m, y)]` and `y ≥ 0`, where
`days_in_month(2, y) = 29` exactly when `y` is a leap year under the
library's leap-year rule (`y % 4 == 0`). -/
def spec_date_new_ok (year : Int) (month day : Nat) : Bool :=
  let days_in_month : Nat :=
    match month with
    | 1 => 31
    | 2 => if Int.tmod year 4 = 0 then 29 else 28
    | 3 => 31
    | 4 => 30
    | 5 => 31
    | 6 => 30
    | 7 => 31
    | 8 => 31
    | 9 => 30
    | 10 => 31
    | 11 => 30
    | 12 => 31
    | _ => 0
  (1 ≤ month && month ≤ 12) && (1 ≤ day && day ≤ days_in_month)
    && (0 ≤ year)

/-- The derived-weekday invariant of the spec's data model: the stored
`weekday` field is the value the weekday algorithm derives from the stored
`(year, month, day)`. -/
def Date.weekday_consistent (dt : Date) : Bool :=
  match Weekday.from_values dt.year.as_i32 dt.month.as_u8 dt.day.as_u8 with
  | .ok w => w = dt.weekday
  | .error _ => false

/-- C1: the claim says `Date::new(y, m, d)` succeeds iff `m ∈ [1,12]`,
`d ∈ [1, days_in_month(m, y)]` and `y ≥ 0`.  It fails in both directions:
2020-01-02 satisfies the spec predicate yet `Date::new` rejects it (its
Zeller value is 0, which `Weekday::from_u8` treats as invalid), while
(2020, 1, 0) violates the spec predicate (day 0) yet `Date::new` accepts it
(the day check has no lower bound). -/
theorem c1_date_new_validity_divergence :
    spec_date_new_ok 2020 1 2 = true ∧
    Date.new 2020 1 2
      = Except.error { message := "Invalid day provided", code := .invalid,
                       is_transient := true, cause := none } ∧
    spec_date_new_ok 2020 1 0 = false ∧
    Date.new 2020 1 0
      = Except.ok { year := ⟨2020⟩, month := .january, day := ⟨0⟩,
                    weekday := .thursday } :=
  ⟨rfl, rfl, rfl, rfl⟩

/-- C2: the claim says every publicly reachable `Date` keeps its `weekday`
field equal to the weekday derived from its `(year, month, day)`.  It fails
after one `add_days` step: `Date::new(2019, 1, 1)` stores Wednesday, and
`add_days(1)` moves the date to 2019-01-02 without touching the weekday,
while the derivation algorithm yields Thursday for 2019-01-02. -/
theorem c2_weekday_invariant_broken :
    (Date.new 2019 1 1).map (fun d => (d.add_days 1).weekday_consistent)
      = Except.ok false ∧
    (Date.new 2019 1 1).map (fun d => d.add_days 1)
      = Except.ok { year := ⟨2019⟩, month := .january, day := ⟨2⟩,
                    weekday := .wednesday } ∧
    Weekday.from_values 2019 1 2 = Except.ok .thursday :=
  ⟨rfl, rfl, rfl⟩

/-- C3: the claim says the weekday derivation yields Wednesday for
2020-01-01, Saturday for 2000-01-01 and Thursday for 1900-03-01.  The code
yields Friday, Monday and Thursday respectively: for January and February
dates it adds 12 to the month but never subtracts 1 from the year, so only
the March date matches; moreover Saturday (congruence value 0) is mapped to
an error and can never be produced. -/
theorem c3_weekday_reference_divergence :
    (Date.new 2020 1 1).map Date.weekday = Except.ok .friday ∧
    (Date.new 2000 1 1).map Date.weekday = Except.ok .monday ∧
    (Date.new 1900 3 1).map Date.weekday = Except.ok .thursday ∧
    Weekday.friday ≠ Weekday.wednesday ∧
    Weekday.monday ≠ Weekday.saturday :=
  ⟨rfl, rfl, rfl, by decide, by decide⟩

/-- C4: the claim says `add_months` clamps the day to the target month's
last day, so Jan 31, 2023 plus one month is Feb 28, 2023.  The code clamps
against the month BEFORE advancing it, so the day stays 31 and the result is
the invalid date Feb 31, 2023 (February 2023 has 28 days). -/
theorem c4_add_months_no_clamp :
    (Date.new 2023 1 31).map (fun d => d.add_months 1)
      = Except.ok { year := ⟨2023⟩, month := .february, day := ⟨31⟩,
                    weekday := .wednesday } ∧
    Month.february.valid_days_in_month 2023 = 28 :=
  ⟨rfl, rfl⟩

/-- C5: the claim says `add_years`/`sub_years` clamp Feb 29 to Feb 28 when
the target year is not a leap year, so Feb 29, 2020 plus one year is Feb 28,
2021.  The code tests the leapness of the year BEFORE stepping it, so
starting from the leap year 2020 the day is kept at 29 and the results are
the invalid dates Feb 29, 2021 and Feb 29, 2019. -/
theorem c5_add_years_no_leap_clamp :
    (Date.new 2020 2 29).map (fun d => d.add_years 1)
      = Except.ok { year := ⟨2021⟩, month := .february, day := ⟨29⟩,
                    weekday := .monday } ∧
    (Date.new 2020 2 29).map (fun d => d.sub_years 1)
      = Except.ok { year := ⟨2019⟩, month := .february, day := ⟨29⟩,
                    weekday := .monday } ∧
    Year.is_leap_year ⟨2021⟩ = false ∧
    Year.is_leap_year ⟨2019⟩ = false :=
  ⟨rfl, rfl, rfl, rfl⟩

/-- C6: the claim says `date.add_days(n).sub_days(n) == date` for every
valid date and nonnegative n not crossing year 0.  It fails at n = 1 from
Apr 30, 2019 (no year-0 crossing): `add_days(1)` steps the month to May but
then advances the day to 31 instead of resetting it (30 is not greater than
May's last day 31), giving May 31; `sub_days(1)` then gives May 30, not
Apr 30. -/
theorem c6_add_sub_days_roundtrip_fails :
    Date.new 2019 4 30
      = Except.ok { year := ⟨2019⟩, month := .april, day := ⟨30⟩,
                    weekday := .tuesday } ∧
    (Date.new 2019 4 30).map (fun d => (d.add_days 1).sub_days 1)
      = Except.ok { year := ⟨2019⟩, month := .may, day := ⟨30⟩,
                    weekday := .tuesday } ∧
    ({ year := ⟨2019⟩, month := .may, day := ⟨30⟩,
       weekday := .tuesday } : Date)
      ≠ { year := ⟨2019⟩, month := .april, day := ⟨30⟩,
          weekday := .tuesday } :=
  ⟨rfl, rfl, by decide⟩

/-- C7: the claim says every bounded primitive's cyclic `next` wraps its
maximum to its minimum (and `previous` the minimum to the maximum), never
failing or leaving the value unchanged.  `Month` violates it at both ends:
`next` at December returns `None` and leaves the month December, and
`next_back` at January returns `None` and leaves it January — unlike, for
example, `Day` (31 wraps to 1) and `Hour` (23 wraps to 0). -/
theorem c7_month_iterator_does_not_wrap :
    Month.next .december = (.december, none) ∧
    Month.next_back .january = (.january, none) ∧
    Day.next ⟨31⟩ = (⟨1⟩, some ⟨31⟩) ∧
    Hour.next ⟨23⟩ = (⟨0⟩, some ⟨23⟩) :=
  ⟨rfl, rfl, rfl, rfl⟩

/-- C8 counterexample: the claim says every `local()` factory surfaces a
local-zone failure as an `Internal` error with the cause attached, but
`Time::local` returns an `Invalid` error with no cause attached. -/
theorem c8_counterexample_time_local_not_internal :
    result_code (Time.local (.error "failed to determine local offset"))
      = some .invalid ∧
    result_cause (Time.local (.error "failed to determine local offset"))
      = none ∧
    ErrorCode.invalid ≠ ErrorCode.internal :=
  ⟨rfl, rfl, by decide⟩

/-- C8 (amended): when local-zone retrieval fails, `Date::local` returns an
`Internal` failure with the cause attached; `Time::local` returns an
`Invalid` failure whose message is the cause's text, with no cause attached;
`DateTime::local` returns a `DateTimeCreation` failure with the cause
attached. -/
theorem c8_local_failure_codes (cause : String) :
    Date.local (.error cause)
      = Except.error { message := "Failed to get local date",
                       code := .internal, is_transient := true,
                       cause := some cause } ∧
    Time.local (.error cause)
      = Except.error { message := cause, code := .invalid,
                       is_transient := true, cause := none } ∧
    DateTime.local (.error cause)
      = Except.error { message := "Failed to get local time",
                       code := .dateTimeCreation, is_transient := true,
                       cause := some cause } :=
  ⟨rfl, rfl, rfl⟩

/-- C9: the claim says the `DateTime` for 2020-01-01, 00:00:00, milliseconds
0, offset 0 renders under ISO8601 exactly as
`2020-01-01T00:00:00.000+00:00`.  It does not: `Year`, `Day`, `Hour`,
`Minute`, `Second` and `Millisecond` render through custom `Display` impls
that discard the `{:0N}` widths applied in `Date::shared_format` and
`Time::shared_format`, so those fields come out unpadded and the program
emits `2020-01-1T0:0:0.0+00:00` — only the month (a plain `u8`) and the
offset (plain `i32` arithmetic) are zero-padded.  This contradicts the
code's own doc example on `impl Format for DateTime`, which asserts the
fully padded literal. -/
theorem c9_iso8601_format_divergence :
    (DateTime.new 2020 1 1 0 0 0 (some 0) (some 0)).bind
        (fun dt => dt.format .ISO8601)
      = Except.ok "2020-01-1T0:0:0.0+00:00" ∧
    "2020-01-1T0:0:0.0+00:00" ≠ "2020-01-01T00:00:00.000+00:00" :=
  ⟨rfl, by decide⟩

/-- C10: for every in-range hour `h ≤ 23` and every `n ≤ 23`, the `Sub<u8>`
operator on `Hour` is total and returns the in-range hour `(h - n) mod 24`,
including when `n > h`: under the u8 wrapping semantics of the compiled
arithmetic, the wrap of `self.0 - rhs` and the wrap of the subsequent
`hour + 24` cancel exactly. -/
theorem c10_hour_sub_total_mod24 :
    ∀ h : Nat, h ≤ 23 → ∀ n : Nat, n ≤ 23 →
      (Hour.sub_u8 ⟨h⟩ n).val ≤ 23 ∧
      ((Hour.sub_u8 ⟨h⟩ n).val : Int) = Int.emod ((h : Int) - (n : Int)) 24 := by
  decide

/-- C10 witness: the theorem applied at h = 0, n = 1, the case where the
minuend is smaller than the subtrahend: the result is hour 23. -/
theorem c10_hour_sub_witness :
    (0 : Nat) ≤ 23 ∧ (1 : Nat) ≤ 23 ∧
    ((Hour.sub_u8 ⟨0⟩ 1).val ≤ 23 ∧
      ((Hour.sub_u8 ⟨0⟩ 1).val : Int) = Int.emod ((0 : Int) - (1 : Int)) 24) :=
  ⟨by decide, by decide, c10_hour_sub_total_mod24 0 (by decide) 1 (by decide)⟩

end Adjustment
